import Mathlib

/-!
Shallow embedding of the marketplace backend's dataset views
(`src/datasets/views.py`, `src/datasets/models.py`) in Lean 4.

External collaborators (the web3 client, the Pinata pinning service, the
deployed contract, the Fernet cipher) are modelled as explicit parameters:
chain reads as `Except`-valued oracles, the pinning service as a
content-addressed store value, the cipher as a pair of functions.  The
view handlers themselves are translated step for step from the Python
source; every distinct Python return site maps to a distinct result
constructor.
-/

namespace Marketplace

/-- Opaque byte sequences (file contents, ciphertexts, Fernet keys). -/
abbrev Bytes := List Nat

/-- Lowercase a string character by character (Python `str.lower()` on the
ASCII addresses this code handles). -/
def lowerStr (s : String) : String :=
  String.mk (s.data.map Char.toLower)

/-- Python falsiness test for an optional string field
(`if not wallet_address:` is true for a missing key and for `""`). -/
def truthyStr : Option String → Bool
  | none => false
  | some s => s != ""

/-- Python falsiness test for an optional integer field
(`if not token_id:` is true for a missing key and for `0`). -/
def truthyInt : Option Int → Bool
  | none => false
  | some n => n != 0

/-- Hex-digit test for address validation. -/
def isHexChar (c : Char) : Bool :=
  c.isDigit || (c ≥ 'a' && c ≤ 'f') || (c ≥ 'A' && c ≤ 'F')

/-- Strip a leading `0x`/`0X` marker from a character list. -/
def dropHexMark : List Char → List Char
  | '0' :: 'x' :: rest => rest
  | '0' :: 'X' :: rest => rest
  | cs => cs

/-- Validity domain of `web3.Web3.to_checksum_address`: an optional hex
marker followed by exactly 40 hex characters. -/
def is_address (s : String) : Bool :=
  (dropHexMark s.data).length == 40 && (dropHexMark s.data).all isHexChar

/-- Model of `web3.Web3.to_checksum_address`.  The EIP-55 mixed-case
capitalization is elided: the canonical form is lowercased instead, which
has the same validity domain and the same equality kernel (two valid
addresses get equal canonical forms iff they are case-insensitively
equal), and those are the only facts the views depend on.  On a malformed
input the library raises; modelled as `Except.error`. -/
def to_checksum_address (s : String) : Except String String :=
  if is_address s then
    .ok (String.mk ('0' :: 'x' :: (dropHexMark s.data).map Char.toLower))
  else
    .error ("InvalidAddress: " ++ s)

/-- One row of the `EncryptedDataset` table (`src/datasets/models.py`).
The `owner` foreign key and `created_at` timestamp play no role in any
view logic modelled here and are omitted. -/
structure EncryptedDataset where
  name : String
  ipfs_cid : String
  encryption_key : Bytes
  dataset_id : Option Int
  owner_address : String
deriving DecidableEq

/-- One on-chain dataset struct as returned by the contract views
(`getDatasetsByOwner`, `getDatasetById`, `getAllDatasets`): an 8-tuple
indexed `ds[0]`..`ds[7]` in the Python source. -/
structure DatasetTuple where
  token_id : Int
  name : String
  description : String
  category : String
  format : String
  ipfs_cid : String
  price : Int
  owner : String
deriving DecidableEq

/-- Read-only contract queries.  Every call is a blocking network read
that can raise; modelled as `Except String` results carrying the
exception text. -/
structure Chain where
  ownerOf : Int → Except String String
  hasAccess : Int → String → Except String Bool
  getDatasetsByOwner : String → Except String (List DatasetTuple)
  getMyPurchasedDatasets : String → Except String (List Int)
  getDatasetById : Int → Except String DatasetTuple
  getAllDatasets : Except String (List DatasetTuple)

/-- Environment-supplied configuration: `SEPOLIA_RPC_URL` (absent or empty
is falsy in the source) and `blockchain_service.CONTRACT_ADDRESS`. -/
structure Config where
  rpc_url : Option String
  contract_address : String

/-- Result of `SecureAccessView.get`, one constructor per Python return
site (`accessDenied` is the 403 "Access denied: No ownership or active
rental found" response; `serverError` is Django's unhandled-exception 500,
reachable only if the unique-column lookup matched several rows). -/
inductive AccessResult where
  | badRequest (msg : String)
  | notFound (msg : String)
  | configError (msg : String)
  | serverError (msg : String)
  | verificationError (msg : String)
  | accessDenied
  | success (key : Bytes) (ipfs_cid : String) (name : String)
deriving DecidableEq

/-- `SecureAccessView._success_response`: the 200 payload revealing the
record's key, CID and display name. -/
def successResponse (ds : EncryptedDataset) : AccessResult :=
  .success ds.encryption_key ds.ipfs_cid ds.name

/-- `SecureAccessView.get` (`authorize_and_reveal`): verify on-chain
access rights for `(dataset_id, wallet_address)` and reveal the key.
Returns the response together with two observability flags:
whether the `ownerOf` call was attempted and whether the `hasAccess`
call was attempted. -/
def secureAccessGet (cfg : Config) (chain : Chain) (db : List EncryptedDataset)
    (dataset_id : Int) (wallet_address : Option String) :
    AccessResult × Bool × Bool :=
  if truthyStr wallet_address then
    let w := wallet_address.getD ""
    match db.filter (fun d => d.dataset_id == some dataset_id) with
    | [ds] =>
      if truthyStr cfg.rpc_url then
        match to_checksum_address w with
        | .error e => (.verificationError ("Blockchain verification failed: " ++ e), false, false)
        | .ok checksum_wallet =>
          match to_checksum_address cfg.contract_address with
          | .error e => (.verificationError ("Blockchain verification failed: " ++ e), false, false)
          | .ok _ =>
            let owned :=
              match chain.ownerOf dataset_id with
              | .ok owner => owner == checksum_wallet
              | .error _ => false
            if owned then
              (successResponse ds, true, false)
            else
              match chain.hasAccess dataset_id checksum_wallet with
              | .ok true => (successResponse ds, true, true)
              | .ok false => (.accessDenied, true, true)
              | .error e =>
                (.verificationError ("Blockchain verification failed: " ++ e), true, true)
      else
        (.configError "Server config error: Missing RPC URL", false, false)
    | [] => (.notFound "Dataset key not found", false, false)
    | _ => (.serverError "MultipleObjectsReturned", false, false)
  else
    (.badRequest "wallet_address required", false, false)

/-- The outcome the access view produces from the rental check alone,
used to state that a swallowed ownership failure leaves the decision
entirely to `hasAccess`. -/
def rentalOutcome (r : Except String Bool) (ds : EncryptedDataset) : AccessResult :=
  match r with
  | .ok true => successResponse ds
  | .ok false => .accessDenied
  | .error e => .verificationError ("Blockchain verification failed: " ++ e)

/-- Result of `SecureAccessView.post` (the finalize endpoint), one
constructor per Python return site (`serverError` is Django's
unhandled-exception 500: a `MultipleObjectsReturned` from the
unique-column lookup or an IntegrityError from saving a duplicate
`dataset_id`, neither of which the handler catches). -/
inductive FinalizeResult where
  | badRequest (msg : String)
  | notFound (msg : String)
  | unauthorized (msg : String)
  | serverError (msg : String)
  | success
deriving DecidableEq

/-- Set `dataset_id := token_id` on the row keyed by `ipfs_cid`
(`dataset.dataset_id = token_id; dataset.save()`). -/
def setTokenId (db : List EncryptedDataset) (cid : String) (tid : Int) :
    List EncryptedDataset :=
  db.map (fun r => if r.ipfs_cid == cid then { r with dataset_id := some tid } else r)

/-- `SecureAccessView.post` (finalize): attach an on-chain token id to the
record keyed by `ipfs_cid`.  Returns the response and the record store
after the call.  The missing-field test is Python falsiness, so `token_id
= 0` and empty strings count as missing; the owner check runs only when
`owner_address` is truthy; saving a `dataset_id` already used by a
different row violates the unique constraint and escapes as a 500. -/
def finalizePost (db : List EncryptedDataset) (ipfs_cid : Option String)
    (token_id : Option Int) (owner_address : Option String) :
    FinalizeResult × List EncryptedDataset :=
  if truthyStr ipfs_cid && truthyInt token_id then
    match db.filter (fun d => d.ipfs_cid == ipfs_cid.getD "") with
    | [ds] =>
      if truthyStr owner_address &&
          !(lowerStr ds.owner_address == lowerStr (owner_address.getD "")) then
        (.unauthorized "Unauthorized: wallet address mismatch", db)
      else if db.any (fun r =>
          !(r.ipfs_cid == ipfs_cid.getD "") && r.dataset_id == some (token_id.getD 0)) then
        (.serverError "IntegrityError", db)
      else
        (.success, setTokenId db (ipfs_cid.getD "") (token_id.getD 0))
    | [] => (.notFound "Dataset not found", db)
    | _ => (.serverError "MultipleObjectsReturned", db)
  else
    (.badRequest "Missing fields", db)

/-- The Fernet cipher, taken as an external primitive: a keyed
encrypt/decrypt pair.  The views only ever apply it; no view inspects a
ciphertext. -/
structure Cipher where
  encrypt : Bytes → Bytes → Bytes
  decrypt : Bytes → Bytes → Bytes

/-- The Pinata pinning service and its public gateway, modelled as one
content-addressed store: `assignCid` is the service's content addressing,
`store` the pinned contents, `available` whether HTTP calls to it succeed
with status 200. -/
structure Pinata where
  available : Bool
  assignCid : Bytes → String
  store : List (String × Bytes)

/-- `requests.post` against `pinFileToIPFS`: on success the ciphertext is
pinned and its CID (`IpfsHash`) returned; a non-200 response carries the
upstream error text. -/
def pinFile (p : Pinata) (data : Bytes) : Except String (String × Pinata) :=
  if p.available then
    .ok (p.assignCid data, { p with store := (p.assignCid data, data) :: p.store })
  else
    .error "Pinata Error"

/-- Result of `SecureUploadView.post`, one constructor per Python return
site. -/
inductive UploadResult where
  | badRequest (msg : String)
  | configError (msg : String)
  | gatewayError (msg : String)
  | created (ipfs_cid : String) (encryption_key : Bytes) (name : String)
deriving DecidableEq

/-- `SecureUploadView.post` (`secure_upload`): generate a key, encrypt the
file, pin the ciphertext, persist an `EncryptedDataset` row with
`dataset_id = null`, and return the CID and key.  `freshKey` stands for
`Fernet.generate_key()`; `jwt` for the `PINATA_JWT` environment variable;
`file` is the optional upload as (filename, contents).  Returns the
response, the pinning-service state and the record store after the
call. -/
def secureUpload (cipher : Cipher) (jwt : Option String) (freshKey : Bytes)
    (p : Pinata) (db : List EncryptedDataset)
    (file : Option (String × Bytes)) (owner_address : Option String)
    (name : Option String) :
    UploadResult × Pinata × List EncryptedDataset :=
  match file with
  | none => (.badRequest "No file provided", p, db)
  | some (fname, data) =>
    if truthyStr owner_address then
      let dataset_name := name.getD fname
      let encrypted_data := cipher.encrypt freshKey data
      if truthyStr jwt then
        match pinFile p encrypted_data with
        | .error e => (.gatewayError ("Pinata Error: " ++ e), p, db)
        | .ok (ipfs_cid, pinned) =>
          (.created ipfs_cid freshKey dataset_name, pinned,
            db ++ [{ name := dataset_name, ipfs_cid := ipfs_cid,
                     encryption_key := freshKey, dataset_id := none,
                     owner_address := owner_address.getD "" }])
      else
        (.configError "Server config error: Missing Pinata JWT", p, db)
    else
      (.badRequest "owner_address required", p, db)

/-- Result of `DownloadEncryptedFileView.get`: the raw ciphertext body on
200, a 502 for either a non-200 gateway status or a network failure. -/
inductive DownloadResult where
  | ok (body : Bytes)
  | gatewayError (msg : String)
deriving DecidableEq

/-- `DownloadEncryptedFileView.get` (`fetch_ciphertext`): proxy the bytes
pinned under `ipfs_cid` from the gateway, without touching them. -/
def fetchCiphertext (p : Pinata) (ipfs_cid : String) : DownloadResult :=
  if p.available then
    match p.store.find? (fun e => e.1 == ipfs_cid) with
    | some e => .ok e.2
    | none => .gatewayError "IPFS fetch failed: 404"
  else
    .gatewayError "Failed to fetch from IPFS"

/-- One entry of the holdings response: the dataset struct with the price
stringified, exactly the dict built in `UserDatasetsView.get`. -/
structure HoldingItem where
  token_id : Int
  name : String
  description : String
  category : String
  format : String
  ipfs_cid : String
  price : String
  owner : String
deriving DecidableEq

/-- Build one response dict from an on-chain dataset tuple. -/
def toItem (ds : DatasetTuple) : HoldingItem :=
  { token_id := ds.token_id, name := ds.name, description := ds.description,
    category := ds.category, format := ds.format, ipfs_cid := ds.ipfs_cid,
    price := toString ds.price, owner := ds.owner }

/-- The purchased-datasets loop: fetch the detail struct of each token id
in turn; a failing `getDatasetById` aborts the loop and the surrounding
`except` keeps whatever was appended before the failure. -/
def purchasedLoop (chain : Chain) (acc : List HoldingItem) :
    List Int → List HoldingItem
  | [] => acc
  | t :: rest =>
    match chain.getDatasetById t with
    | .ok ds => purchasedLoop chain (acc ++ [toItem ds]) rest
    | .error _ => acc

/-- The rented-datasets scan over the full catalog: skip tokens already
owned or purchased, keep those where `hasAccess` is true; a failing
`hasAccess` is swallowed by the inner `except` and the loop continues. -/
def rentedLoop (chain : Chain) (cw : String) (exclude : List HoldingItem)
    (acc : List HoldingItem) : List DatasetTuple → List HoldingItem
  | [] => acc
  | ds :: rest =>
    if exclude.any (fun d => d.token_id == ds.token_id) then
      rentedLoop chain cw exclude acc rest
    else
      match chain.hasAccess ds.token_id cw with
      | .ok true => rentedLoop chain cw exclude (acc ++ [toItem ds]) rest
      | .ok false => rentedLoop chain cw exclude acc rest
      | .error _ => rentedLoop chain cw exclude acc rest

/-- Result of `UserDatasetsView.get`. -/
inductive HoldingsResult where
  | configError (msg : String)
  | fetchError (msg : String)
  | success (owned purchased rented : List HoldingItem) (total_count : Nat)
deriving DecidableEq

/-- The owned-datasets block: `getDatasetsByOwner` plus its `except`
handler, which leaves the category empty on failure. -/
def ownedEnum (chain : Chain) (cw : String) : List HoldingItem :=
  match chain.getDatasetsByOwner cw with
  | .ok l => l.map toItem
  | .error _ => []

/-- The purchased-datasets block: `getMyPurchasedDatasets` plus the
per-token detail loop and its `except` handler, which keeps whatever was
appended before a failure. -/
def purchasedEnum (chain : Chain) (cw : String) : List HoldingItem :=
  match chain.getMyPurchasedDatasets cw with
  | .ok ids => purchasedLoop chain [] ids
  | .error _ => []

/-- The rented-datasets block: `getAllDatasets` plus the rental scan and
its `except` handler. -/
def rentedEnum (chain : Chain) (cw : String) (exclude : List HoldingItem) :
    List HoldingItem :=
  match chain.getAllDatasets with
  | .ok l => rentedLoop chain cw exclude [] l
  | .error _ => []

/-- `UserDatasetsView.get` (`list_holdings`): three independent
enumerations against the contract, each wrapped in its own `except` so a
failure degrades that category instead of failing the call; the outer
`except` catches address normalization errors. -/
def userDatasetsGet (cfg : Config) (chain : Chain) (wallet_address : String) :
    HoldingsResult :=
  if truthyStr cfg.rpc_url then
    match to_checksum_address wallet_address with
    | .error e => .fetchError ("Failed to fetch user datasets: " ++ e)
    | .ok cw =>
      match to_checksum_address cfg.contract_address with
      | .error e => .fetchError ("Failed to fetch user datasets: " ++ e)
      | .ok _ =>
        .success (ownedEnum chain cw) (purchasedEnum chain cw)
          (rentedEnum chain cw (ownedEnum chain cw ++ purchasedEnum chain cw))
          ((ownedEnum chain cw).length + (purchasedEnum chain cw).length +
            (rentedEnum chain cw (ownedEnum chain cw ++ purchasedEnum chain cw)).length)
  else
    .configError "Server config error: Missing RPC URL"

end Marketplace

deriving instance DecidableEq for Except

namespace Marketplace

/-! Concrete fixtures used to instantiate the theorems below. -/

/-- A valid wallet address, already in canonical (lowercase) form. -/
def addrA : String := "0xaaaaaaaaaaaaaaaaaaaaaaaaaaaaaaaaaaaaaaaa"

/-- The same wallet written in upper case. -/
def addrAU : String := "0xAAAAAAAAAAAAAAAAAAAAAAAAAAAAAAAAAAAAAAAA"

/-- A second, distinct wallet address. -/
def addrB : String := "0xbbbbbbbbbbbbbbbbbbbbbbbbbbbbbbbbbbbbbbbb"

/-- The configured contract address. -/
def contractAddr : String := "0xcccccccccccccccccccccccccccccccccccccccc"

/-- A Fernet key as stored in the records. -/
def key0 : Bytes := [107, 101, 121, 48]

/-- A record whose minting was finalized with token id 1, owned by `addrA`. -/
def rec1 : EncryptedDataset :=
  { name := "Financials", ipfs_cid := "QmCid1", encryption_key := key0,
    dataset_id := some 1, owner_address := addrA }

/-- A configuration with the RPC endpoint present. -/
def cfg0 : Config := { rpc_url := some "https://rpc.sepolia.example", contract_address := contractAddr }

/-- A chain on which every read fails. -/
def chainBase : Chain :=
  { ownerOf := fun _ => .error "execution reverted",
    hasAccess := fun _ _ => .error "execution reverted",
    getDatasetsByOwner := fun _ => .error "network down",
    getMyPurchasedDatasets := fun _ => .error "network down",
    getDatasetById := fun _ => .error "network down",
    getAllDatasets := .error "network down" }

/-- A chain where token 1 is owned by `addrB` and nobody rents anything. -/
def chainOwnedByB : Chain :=
  { chainBase with
    ownerOf := fun t => if t == 1 then .ok addrB else .error "nonexistent token",
    hasAccess := fun _ _ => .ok false }

/-- A chain where token 1 is owned by `addrA`. -/
def chainOwnedByA : Chain :=
  { chainBase with
    ownerOf := fun t => if t == 1 then .ok addrA else .error "nonexistent token" }

/-- A chain on which the ownership read reverts and the rental read raises
with the message "boom". -/
def chainRentalRaises : Chain :=
  { chainBase with hasAccess := fun _ _ => .error "boom" }

/-- A freshly uploaded record: token id still null. -/
def recNew : EncryptedDataset :=
  { name := "Fresh", ipfs_cid := "QmCid0", encryption_key := key0,
    dataset_id := none, owner_address := addrA }

/-- A record whose token id was already finalized to 5. -/
def recSet5 : EncryptedDataset :=
  { name := "Financials", ipfs_cid := "QmCid1", encryption_key := key0,
    dataset_id := some 5, owner_address := addrA }

/-- A toy cipher instance used to instantiate the round-trip theorem: the
key is prepended on encryption and stripped on decryption. -/
def revCipher : Cipher :=
  { encrypt := fun k m => k ++ m, decrypt := fun k c => c.drop k.length }

/-- A live, empty pinning service whose CID assignment is constant. -/
def pinata0 : Pinata :=
  { available := true, assignCid := fun _ => "QmPinned", store := [] }

/-- An on-chain dataset struct with token id 1. -/
def tup1 : DatasetTuple :=
  { token_id := 1, name := "Air quality", description := "hourly",
    category := "environment", format := "csv", ipfs_cid := "QmA",
    price := 100, owner := addrB }

/-- A chain where the purchased-token list is [1, 2] but only token 1 has
a detail struct: the detail fetch for token 2 raises. -/
def chainPartialPurchase : Chain :=
  { chainBase with
    getDatasetsByOwner := fun _ => .ok [],
    getMyPurchasedDatasets := fun _ => .ok [1, 2],
    getDatasetById := fun t => if t == 1 then .ok tup1 else .error "nonexistent dataset",
    getAllDatasets := .ok [] }

end Marketplace

namespace Marketplace

/-- Filtering the store by CID commutes with the finalize update, because
the update never touches `ipfs_cid`. -/
theorem setTokenId_filter (db : List EncryptedDataset) (c : String) (t : Int) :
    (setTokenId db c t).filter (fun d => d.ipfs_cid == c) =
      (db.filter (fun d => d.ipfs_cid == c)).map
        (fun r => { r with dataset_id := some t }) := by
  unfold setTokenId
  rw [List.filter_map]
  have hp : ((fun d => d.ipfs_cid == c) ∘
      (fun r : EncryptedDataset =>
        if r.ipfs_cid == c then { r with dataset_id := some t } else r)) =
      (fun d : EncryptedDataset => d.ipfs_cid == c) := by
    funext r
    by_cases h : r.ipfs_cid = c <;> simp [h]
  rw [hp]
  apply List.map_congr_left
  intro a ha
  have h2 := (List.mem_filter.mp ha).2
  simp only [beq_iff_eq] at h2
  simp [h2]

/-- The duplicate-token-id scan is unchanged by the finalize update: rows
keyed by the CID being finalized are excluded from the scan either way. -/
theorem setTokenId_any_dup (db : List EncryptedDataset) (c : String) (t : Int) :
    (setTokenId db c t).any (fun r => !(r.ipfs_cid == c) && r.dataset_id == some t) =
      db.any (fun r => !(r.ipfs_cid == c) && r.dataset_id == some t) := by
  unfold setTokenId
  rw [List.any_map]
  congr 1
  funext r
  by_cases h : r.ipfs_cid = c <;> simp [h]

/-- Applying the finalize update twice with the same arguments equals
applying it once. -/
theorem setTokenId_idem (db : List EncryptedDataset) (c : String) (t : Int) :
    setTokenId (setTokenId db c t) c t = setTokenId db c t := by
  unfold setTokenId
  rw [List.map_map]
  congr 1
  funext r
  by_cases h : r.ipfs_cid = c <;> simp [h]

end Marketplace

namespace Marketplace

/-- Claim C1: if the ownership predicate does not name the caller's wallet
and the rental predicate answers false for (token, wallet), the access
view answers AccessDenied and never the record's key. -/
theorem access_denied_without_ownership_or_rental
    (cfg : Config) (chain : Chain) (db : List EncryptedDataset)
    (T : Int) (w cw : String) (ds : EncryptedDataset)
    (hw : w ≠ "")
    (hdb : db.filter (fun d => d.dataset_id == some T) = [ds])
    (hrpc : truthyStr cfg.rpc_url = true)
    (hcw : to_checksum_address w = .ok cw)
    (hcc : ∃ c, to_checksum_address cfg.contract_address = .ok c)
    (hown : ∀ o, chain.ownerOf T = .ok o → o ≠ cw)
    (hrent : chain.hasAccess T cw = .ok false) :
    (secureAccessGet cfg chain db T (some w)).1 = .accessDenied ∧
    ∀ k c n, (secureAccessGet cfg chain db T (some w)).1 ≠ .success k c n := by
  obtain ⟨c0, hcc⟩ := hcc
  have hres : (secureAccessGet cfg chain db T (some w)).1 = .accessDenied := by
    unfold secureAccessGet
    have hws : truthyStr (some w) = true := by simp [truthyStr, hw]
    cases hOwn : chain.ownerOf T with
    | ok o =>
      have hne : (o == cw) = false := beq_eq_false_iff_ne.mpr (hown o hOwn)
      simp [hws, hdb, hrpc, hcw, hcc, hOwn, hne, hrent]
    | error e =>
      simp [hws, hdb, hrpc, hcw, hcc, hOwn, hrent]
  exact ⟨hres, fun k c n h => by rw [hres] at h; exact AccessResult.noConfusion h⟩

/-- Witness for C1 at a concrete state: `addrB` owns token 1 on chain,
`addrA` (queried in upper case) has no rental access, and the view
denies. -/
theorem access_denied_without_ownership_or_rental_witness :
    (secureAccessGet cfg0 chainOwnedByB [rec1] 1 (some addrAU)).1 = .accessDenied :=
  (access_denied_without_ownership_or_rental cfg0 chainOwnedByB [rec1] 1 addrAU addrA rec1
    (by decide) (by decide) (by decide) (by decide) ⟨contractAddr, by decide⟩
    (fun o h => by
      rw [show chainOwnedByB.ownerOf 1 = Except.ok addrB from rfl] at h
      injection h with h2
      rw [← h2]
      decide)
    (by decide)).1

/-- Claim C2: if the ownership predicate returns the caller's own
(checksummed) wallet, the view authorizes at once and the rental
predicate is never consulted. -/
theorem ownership_short_circuits_rental
    (cfg : Config) (chain : Chain) (db : List EncryptedDataset)
    (T : Int) (w cw : String) (ds : EncryptedDataset)
    (hw : w ≠ "")
    (hdb : db.filter (fun d => d.dataset_id == some T) = [ds])
    (hrpc : truthyStr cfg.rpc_url = true)
    (hcw : to_checksum_address w = .ok cw)
    (hcc : ∃ c, to_checksum_address cfg.contract_address = .ok c)
    (hown : chain.ownerOf T = .ok cw) :
    secureAccessGet cfg chain db T (some w) = (successResponse ds, true, false) := by
  obtain ⟨c0, hcc⟩ := hcc
  unfold secureAccessGet
  have hws : truthyStr (some w) = true := by simp [truthyStr, hw]
  simp [hws, hdb, hrpc, hcw, hcc, hown]

/-- Witness for C2 at a concrete state: `addrA` owns token 1 and is
revealed the key while the rental flag stays false, even though every
rental query on this chain raises. -/
theorem ownership_short_circuits_rental_witness :
    secureAccessGet cfg0 chainOwnedByA [rec1] 1 (some addrAU) =
      (successResponse rec1, true, false) :=
  ownership_short_circuits_rental cfg0 chainOwnedByA [rec1] 1 addrAU addrA rec1
    (by decide) (by decide) (by decide) (by decide) ⟨contractAddr, by decide⟩ (by decide)

/-- Counterexample to claim C3: on a chain where the ownership read
reverts and the rental read raises, the access view answers the 500
blockchain-verification-failed error, not AccessDenied — the rental
check's failure is not swallowed. -/
theorem rental_error_not_denied_cex :
    (secureAccessGet cfg0 chainRentalRaises [rec1] 1 (some addrA)).1 =
      .verificationError ("Blockchain verification failed: " ++ "boom") ∧
    (secureAccessGet cfg0 chainRentalRaises [rec1] 1 (some addrA)).1 ≠
      .accessDenied := by
  exact ⟨by decide, by decide⟩

/-- Claim C3 as amended: once ownership does not authorize, a rental
predicate returning false yields AccessDenied, but a rental call that
fails with an error surfaces as the blockchain-verification-failed
internal error carrying the exception text. -/
theorem rental_false_denied_rental_error_surfaced
    (cfg : Config) (chain : Chain) (db : List EncryptedDataset)
    (T : Int) (w cw : String) (ds : EncryptedDataset)
    (hw : w ≠ "")
    (hdb : db.filter (fun d => d.dataset_id == some T) = [ds])
    (hrpc : truthyStr cfg.rpc_url = true)
    (hcw : to_checksum_address w = .ok cw)
    (hcc : ∃ c, to_checksum_address cfg.contract_address = .ok c)
    (hown : ∀ o, chain.ownerOf T = .ok o → o ≠ cw) :
    (chain.hasAccess T cw = .ok false →
      (secureAccessGet cfg chain db T (some w)).1 = .accessDenied) ∧
    (∀ e, chain.hasAccess T cw = .error e →
      (secureAccessGet cfg chain db T (some w)).1 =
        .verificationError ("Blockchain verification failed: " ++ e)) := by
  obtain ⟨c0, hcc⟩ := hcc
  have hws : truthyStr (some w) = true := by simp [truthyStr, hw]
  constructor
  · intro hrent
    unfold secureAccessGet
    cases hOwn : chain.ownerOf T with
    | ok o =>
      have hne : (o == cw) = false := beq_eq_false_iff_ne.mpr (hown o hOwn)
      simp [hws, hdb, hrpc, hcw, hcc, hOwn, hne, hrent]
    | error e =>
      simp [hws, hdb, hrpc, hcw, hcc, hOwn, hrent]
  · intro e hrent
    unfold secureAccessGet
    cases hOwn : chain.ownerOf T with
    | ok o =>
      have hne : (o == cw) = false := beq_eq_false_iff_ne.mpr (hown o hOwn)
      simp [hws, hdb, hrpc, hcw, hcc, hOwn, hne, hrent]
    | error e2 =>
      simp [hws, hdb, hrpc, hcw, hcc, hOwn, hrent]

/-- Witness for the amended C3 at concrete states: with ownership
reverting, a false rental answer denies, and a raising rental answer
surfaces as the 500 error. -/
theorem rental_false_denied_rental_error_surfaced_witness :
    (secureAccessGet cfg0 chainOwnedByB [rec1] 1 (some addrA)).1 = .accessDenied ∧
    (secureAccessGet cfg0 chainRentalRaises [rec1] 1 (some addrA)).1 =
      .verificationError ("Blockchain verification failed: " ++ "boom") :=
  ⟨(rental_false_denied_rental_error_surfaced cfg0 chainOwnedByB [rec1] 1 addrA addrA rec1
      (by decide) (by decide) (by decide) (by decide) ⟨contractAddr, by decide⟩
      (fun o h => by
        rw [show chainOwnedByB.ownerOf 1 = Except.ok addrB from rfl] at h
        injection h with h2
        rw [← h2]
        decide)).1 (by decide),
   (rental_false_denied_rental_error_surfaced cfg0 chainRentalRaises [rec1] 1 addrA addrA rec1
      (by decide) (by decide) (by decide) (by decide) ⟨contractAddr, by decide⟩
      (fun o h => by
        rw [show chainRentalRaises.ownerOf 1 = Except.error "execution reverted" from rfl] at h
        exact Except.noConfusion h)).2 "boom" (by decide)⟩

/-- Claim C4: a failing ownership read is swallowed: the rental check is
still consulted and the response is computed from the rental answer
alone, with the ownership error text appearing nowhere. -/
theorem ownership_failure_swallowed
    (cfg : Config) (chain : Chain) (db : List EncryptedDataset)
    (T : Int) (w cw : String) (ds : EncryptedDataset) (e : String)
    (hw : w ≠ "")
    (hdb : db.filter (fun d => d.dataset_id == some T) = [ds])
    (hrpc : truthyStr cfg.rpc_url = true)
    (hcw : to_checksum_address w = .ok cw)
    (hcc : ∃ c, to_checksum_address cfg.contract_address = .ok c)
    (hown : chain.ownerOf T = .error e) :
    (secureAccessGet cfg chain db T (some w)).2.2 = true ∧
    (secureAccessGet cfg chain db T (some w)).1 =
      rentalOutcome (chain.hasAccess T cw) ds := by
  obtain ⟨c0, hcc⟩ := hcc
  have hws : truthyStr (some w) = true := by simp [truthyStr, hw]
  unfold secureAccessGet rentalOutcome
  cases hrent : chain.hasAccess T cw with
  | ok b =>
    cases b <;> simp [hws, hdb, hrpc, hcw, hcc, hown, hrent]
  | error e2 =>
    simp [hws, hdb, hrpc, hcw, hcc, hown, hrent]

/-- Witness for C4 at a concrete state: every ownership read on this
chain reverts, yet the rental check runs and its raised error alone
determines the response. -/
theorem ownership_failure_swallowed_witness :
    (secureAccessGet cfg0 chainRentalRaises [rec1] 1 (some addrA)).2.2 = true ∧
    (secureAccessGet cfg0 chainRentalRaises [rec1] 1 (some addrA)).1 =
      rentalOutcome (chainRentalRaises.hasAccess 1 addrA) rec1 :=
  ownership_failure_swallowed cfg0 chainRentalRaises [rec1] 1 addrA addrA rec1
    "execution reverted" (by decide) (by decide) (by decide) (by decide)
    ⟨contractAddr, by decide⟩ (by decide)

/-- Claim C8: a malformed wallet address (not 40 hex characters after the
optional prefix) makes the view answer the invalid-address error, and
neither the ownership nor the rental chain call is attempted. -/
theorem invalid_address_no_chain_call
    (cfg : Config) (chain : Chain) (db : List EncryptedDataset)
    (T : Int) (w : String) (ds : EncryptedDataset)
    (hw : w ≠ "")
    (hinv : is_address w = false)
    (hdb : db.filter (fun d => d.dataset_id == some T) = [ds])
    (hrpc : truthyStr cfg.rpc_url = true) :
    secureAccessGet cfg chain db T (some w) =
      (.verificationError ("Blockchain verification failed: " ++ ("InvalidAddress: " ++ w)),
        false, false) := by
  have hws : truthyStr (some w) = true := by simp [truthyStr, hw]
  have hcw : to_checksum_address w = .error ("InvalidAddress: " ++ w) := by
    unfold to_checksum_address
    simp [hinv]
  unfold secureAccessGet
  simp [hws, hdb, hrpc, hcw]

/-- Witness for C8 at a concrete state: the wallet "0xdeadbeef" is too
short, the view rejects it and both chain-call flags stay false. -/
theorem invalid_address_no_chain_call_witness :
    secureAccessGet cfg0 chainOwnedByA [rec1] 1 (some "0xdeadbeef") =
      (.verificationError
        ("Blockchain verification failed: " ++ ("InvalidAddress: " ++ "0xdeadbeef")),
        false, false) :=
  invalid_address_no_chain_call cfg0 chainOwnedByA [rec1] 1 "0xdeadbeef" rec1
    (by decide) (by decide) (by decide) (by decide)

/-- Counterexample to claim C5: the record's token id is already set to 5,
yet finalize with no claimed wallet succeeds and overwrites it to 7 — the
stored owner wallet is never consulted because the check runs only when a
wallet accompanies the request. -/
theorem token_overwrite_unverified_cex :
    finalizePost [recSet5] (some "QmCid1") (some 7) none =
      (.success, [{ recSet5 with dataset_id := some 7 }]) ∧
    recSet5.dataset_id = some 5 ∧ (5 : Int) ≠ 7 :=
  ⟨by decide, by decide, by decide⟩

/-- Claim C5 as amended: finalize verifies the claimed wallet against the
record's stored owner only when a non-empty wallet accompanies the
request — a supplied mismatching wallet is rejected with the store
unchanged, while an omitted (or empty) wallet lets finalize set the token
id unconditionally, including overwriting an already-set id. -/
theorem finalize_owner_check_only_when_wallet_supplied
    (db : List EncryptedDataset) (cid : String) (tid : Int) (oa : Option String)
    (ds : EncryptedDataset)
    (hcid : cid ≠ "") (htid : tid ≠ 0)
    (hdb : db.filter (fun d => d.ipfs_cid == cid) = [ds])
    (hdup : db.any (fun r => !(r.ipfs_cid == cid) && r.dataset_id == some tid) = false) :
    (truthyStr oa = false →
      finalizePost db (some cid) (some tid) oa = (.success, setTokenId db cid tid)) ∧
    (∀ w, oa = some w → w ≠ "" → lowerStr ds.owner_address ≠ lowerStr w →
      finalizePost db (some cid) (some tid) oa =
        (.unauthorized "Unauthorized: wallet address mismatch", db)) := by
  have h1 : (truthyStr (some cid) && truthyInt (some tid)) = true := by
    simp [truthyStr, truthyInt, hcid, htid]
  constructor
  · intro hoa
    unfold finalizePost
    rw [if_pos h1]
    simp only [Option.getD_some]
    rw [hdb]
    simp [hoa, hdup]
  · intro w hw hwne hmis
    subst hw
    unfold finalizePost
    rw [if_pos h1]
    simp only [Option.getD_some]
    rw [hdb]
    have hts : truthyStr (some w) = true := by simp [truthyStr, hwne]
    have hbeq : (lowerStr ds.owner_address == lowerStr w) = false :=
      beq_eq_false_iff_ne.mpr hmis
    simp [hts, hbeq]

/-- Witness for the amended C5 at a concrete state: finalizing with the
wrong wallet `addrB` against a record owned by `addrA` is rejected and
the store is unchanged. -/
theorem finalize_owner_check_only_when_wallet_supplied_witness :
    finalizePost [recSet5] (some "QmCid1") (some 7) (some addrB) =
      (.unauthorized "Unauthorized: wallet address mismatch", [recSet5]) :=
  (finalize_owner_check_only_when_wallet_supplied [recSet5] "QmCid1" 7 (some addrB) recSet5
    (by decide) (by decide) (by decide) (by decide)).2 addrB rfl (by decide) (by decide)

/-- Claim C7: finalize is idempotent — if a finalize call succeeds and
yields a record store, running the identical call on that store succeeds
again and leaves the store exactly the same. -/
theorem finalize_idempotent (db db' : List EncryptedDataset) (ipfs_cid : Option String)
    (token_id : Option Int) (oa : Option String)
    (hs : finalizePost db ipfs_cid token_id oa = (.success, db')) :
    finalizePost db' ipfs_cid token_id oa = (.success, db') := by
  unfold finalizePost at hs ⊢
  by_cases h1 : (truthyStr ipfs_cid && truthyInt token_id) = true
  · rw [if_pos h1] at hs ⊢
    split at hs
    next ds heq =>
      split at hs
      next hcond => simp at hs
      next hcond =>
        split at hs
        next hdup => simp at hs
        next hdup =>
          have h2 := congrArg Prod.snd hs
          simp only at h2
          subst h2
          rw [setTokenId_filter, heq]
          simp only [List.map_cons, List.map_nil]
          rw [if_neg hcond, setTokenId_any_dup, if_neg hdup, setTokenId_idem]
    next heq => simp at hs
    next heq => simp at hs
  · rw [if_neg h1] at hs
    simp at hs

/-- Witness for C7 at a concrete state: finalizing the fresh record to
token id 14 and then repeating the identical call returns success with
the store unchanged. -/
theorem finalize_idempotent_witness :
    finalizePost (setTokenId [recNew] "QmCid0" 14) (some "QmCid0") (some 14) (some addrA) =
      (.success, setTokenId [recNew] "QmCid0" 14) :=
  finalize_idempotent [recNew] (setTokenId [recNew] "QmCid0" 14)
    (some "QmCid0") (some 14) (some addrA) (by decide)

/-- Claim C10: the finalize endpoint tests its fields for Python
falsiness, so `token_id = 0` is rejected as a missing field and no store
state can ever have token id 0 attached through finalize. -/
theorem finalize_rejects_zero_token_id (db : List EncryptedDataset)
    (cid : Option String) (oa : Option String) :
    finalizePost db cid (some 0) oa = (.badRequest "Missing fields", db) := by
  unfold finalizePost
  simp [truthyInt]

/-- Claim C6: for a valid upload whose pinning succeeds, downloading the
ciphertext by the CID the upload returned and decrypting it under the key
the upload returned gives back exactly the original file bytes. -/
theorem upload_download_roundtrip (cipher : Cipher) (jwt : String) (k : Bytes)
    (p : Pinata) (db : List EncryptedDataset) (fn : String) (data : Bytes)
    (oa : String) (nm : Option String)
    (hjwt : jwt ≠ "") (hoa : oa ≠ "") (hav : p.available = true)
    (hrt : cipher.decrypt k (cipher.encrypt k data) = data) :
    ∃ cid pinned rows ct,
      secureUpload cipher (some jwt) k p db (some (fn, data)) (some oa) nm =
        (.created cid k (nm.getD fn), pinned, rows) ∧
      fetchCiphertext pinned cid = .ok ct ∧
      cipher.decrypt k ct = data := by
  refine ⟨p.assignCid (cipher.encrypt k data),
    { p with store := (p.assignCid (cipher.encrypt k data), cipher.encrypt k data) :: p.store },
    db ++ [{ name := nm.getD fn, ipfs_cid := p.assignCid (cipher.encrypt k data),
             encryption_key := k, dataset_id := none, owner_address := oa }],
    cipher.encrypt k data, ?_, ?_, hrt⟩
  · unfold secureUpload pinFile
    simp [truthyStr, hjwt, hoa, hav]
  · unfold fetchCiphertext
    simp [hav]

/-- Witness for C6 at a concrete state: uploading the bytes `[104, 105]`
under the prepend-the-key cipher, then fetching and decrypting, returns
the original bytes. -/
theorem upload_download_roundtrip_witness :
    ∃ cid pinned rows ct,
      secureUpload revCipher (some "jwt-token") [7, 7] pinata0 []
          (some ("report.csv", [104, 105])) (some addrA) none =
        (.created cid [7, 7] "report.csv", pinned, rows) ∧
      fetchCiphertext pinned cid = .ok ct ∧
      revCipher.decrypt [7, 7] ct = [104, 105] :=
  upload_download_roundtrip revCipher "jwt-token" [7, 7] pinata0 []
    "report.csv" [104, 105] addrA none
    (by decide) (by decide) (by decide) (by decide)

/-- Counterexample to claim C9: the purchased enumeration fails partway
(the detail fetch for the second purchased token raises), yet the
purchased category keeps the item gathered before the failure instead of
being the empty list. -/
theorem partial_purchased_not_empty_cex :
    userDatasetsGet cfg0 chainPartialPurchase addrA =
      .success [] [toItem tup1] [] 1 ∧
    [toItem tup1] ≠ ([] : List HoldingItem) :=
  ⟨by decide, by decide⟩

/-- Claim C9 as amended: once the RPC endpoint is configured and the
addresses normalize, the holdings call always succeeds, and a category
whose initial listing call fails is the empty list; but an enumeration
failing partway (a per-token detail fetch) keeps the items accumulated
before the failure rather than emptying the category. -/
theorem holdings_partial_failure_isolation
    (cfg : Config) (chain : Chain) (w cw : String)
    (hrpc : truthyStr cfg.rpc_url = true)
    (hcw : to_checksum_address w = .ok cw)
    (hcc : ∃ c, to_checksum_address cfg.contract_address = .ok c) :
    (∃ o pu r n, userDatasetsGet cfg chain w = .success o pu r n) ∧
    (∀ e, chain.getDatasetsByOwner cw = .error e →
      ∃ pu r n, userDatasetsGet cfg chain w = .success [] pu r n) ∧
    (∀ e, chain.getMyPurchasedDatasets cw = .error e →
      ∃ o r n, userDatasetsGet cfg chain w = .success o [] r n) ∧
    (∀ e, chain.getAllDatasets = .error e →
      ∃ o pu n, userDatasetsGet cfg chain w = .success o pu [] n) := by
  obtain ⟨c0, hcc⟩ := hcc
  have hmain : userDatasetsGet cfg chain w =
      .success (ownedEnum chain cw) (purchasedEnum chain cw)
        (rentedEnum chain cw (ownedEnum chain cw ++ purchasedEnum chain cw))
        ((ownedEnum chain cw).length + (purchasedEnum chain cw).length +
          (rentedEnum chain cw (ownedEnum chain cw ++ purchasedEnum chain cw)).length) := by
    unfold userDatasetsGet
    simp [hrpc, hcw, hcc]
  refine ⟨⟨_, _, _, _, hmain⟩, ?_, ?_, ?_⟩
  · intro e he
    have ho : ownedEnum chain cw = [] := by unfold ownedEnum; rw [he]
    rw [hmain, ho]
    exact ⟨_, _, _, rfl⟩
  · intro e he
    have hp : purchasedEnum chain cw = [] := by unfold purchasedEnum; rw [he]
    rw [hmain, hp]
    exact ⟨_, _, _, rfl⟩
  · intro e he
    have hr : rentedEnum chain cw (ownedEnum chain cw ++ purchasedEnum chain cw) = [] := by
      unfold rentedEnum; rw [he]
    rw [hmain, hr]
    exact ⟨_, _, _, rfl⟩

/-- Witness for the amended C9 at a concrete state: on a chain where all
three listing calls fail, the holdings call still succeeds. -/
theorem holdings_partial_failure_isolation_witness :
    ∃ o pu r n, userDatasetsGet cfg0 chainBase addrA = .success o pu r n :=
  (holdings_partial_failure_isolation cfg0 chainBase addrA addrA
    (by decide) (by decide) ⟨contractAddr, by decide⟩).1

end Marketplace
